import Mathlib

/-!
Shallow embedding of the MLOS grid-search optimizer
(`mlos_bench/optimizers/grid_search_optimizer.py`) and of the remote OS
environment setup (`mlos_bench/environments/remote/os_env.py`), together with
theorems checking the specification claims against this model.

The grid-search optimizer's own methods are translated directly from the
source.  Its base classes (`Optimizer` / `TrackBestOptimizer`) and the
external `ConfigSpace.generate_grid` routine are not part of the sources;
those pieces are modelled from the specification and are marked as such in
their doc comments.
-/

/-- Trial status vocabulary (`mlos_bench.environments.status.Status`). -/
inductive Status where
  | unknown
  | pending
  | ready
  | succeeded
  | failed
  | canceled
  deriving DecidableEq, Repr

/-- `Status.is_pending()`: true only for the PENDING member. -/
def Status.isPending : Status → Bool
  | .pending => true
  | _ => false

/-- Direction of an optimization target (`"min"` / `"max"`). -/
inductive OptDir where
  | minimize
  | maximize
  deriving DecidableEq, Repr

/-- One tunable parameter, as the grid-search optimizer consumes it:
a name, whether it is finitely quantized, its enumerable distinct values
(meaningful when quantized), and a default value. -/
structure Tunable (V : Type) where
  name : String
  quantized : Bool
  values : List V
  defaultValue : V
  deriving DecidableEq, Repr

/-- `Tunable.cardinality`: the number of distinct values, or `none` when the
tunable is not finitely quantized. -/
def Tunable.cardinality {V : Type} (t : Tunable V) : Option Nat :=
  if t.quantized then some t.values.length else none

/-- The Python expression `tunable.cardinality or np.inf`: `None` and the
(never actually occurring) cardinality `0` are both falsy and map to
infinity, modelled as `none`. -/
def cardOrInf {V : Type} (t : Tunable V) : Option Nat :=
  match t.cardinality with
  | some 0 => none
  | some n => some n
  | none => none

/-- `np.prod([tunable.cardinality or np.inf ...])` in `_sanity_check`:
the product of the cardinalities, `none` when it is infinite.  (Real
cardinalities are at least 1, so infinity times zero never arises.) -/
def gridSizeBound {V : Type} (ts : List (Tunable V)) : Option Nat :=
  ts.foldr
    (fun t acc =>
      match cardOrInf t, acc with
      | some n, some m => some (n * m)
      | _, _ => none)
    (some 1)

/-- A configuration: the tuple of one value per tunable, in the fixed
column order. -/
abbrev Config (V : Type) := List V

/-- Score mappings (target name to value); exact integers stand in for the
Python floats. -/
abbrev ScoreMap := List (String × Int)

/-- Cross product of the per-tunable value lists, first column varying
slowest; one row per fully specified configuration. -/
def gridCross {V : Type} : List (List V) → List (List V)
  | [] => [[]]
  | vs :: rest =>
      vs.foldr (fun v acc => ((gridCross rest).map (fun c => v :: c)) ++ acc) []

/-- Python `dict` key insertion: duplicate keys keep their first position. -/
def dictKeys {V : Type} [DecidableEq V] : List V → List V
  | [] => []
  | a :: l => a :: (dictKeys l).filter (fun x => decide (x ≠ a))

/-- Modelled from the spec: `_get_grid` delegates row enumeration to the
external `ConfigSpace.generate_grid`, specified as the full, deduplicated
cross-product of all tunables' enumerable values in a deterministic column
and row order; the column order here is the tunables' own order.  Returns
the column names together with the pending rows (dict-of-tuples keys). -/
def getGrid {V : Type} [DecidableEq V] (ts : List (Tunable V)) :
    List String × List (Config V) :=
  (ts.map (fun t => t.name), dictKeys (gridCross (ts.map (fun t => t.values))))

/-- The tunable space's default configuration, in the same column order as
the grid. -/
def defaultConfig {V : Type} (ts : List (Tunable V)) : Config V :=
  ts.map (fun t => t.defaultValue)

/-- Construction-time configuration options of the optimizer. -/
structure OptimizerConfig where
  maxSuggestions : Nat
  startWithDefaults : Bool
  targets : List (String × OptDir)
  deriving DecidableEq, Repr

/-- The mutable state of a `GridSearchOptimizer` (fields of the Python
object that the modelled methods read or write). -/
structure GridOptState (V : Type) where
  tunables : List (Tunable V)
  targets : List (String × OptDir)
  maxSuggestions : Nat
  startWithDefaults : Bool
  iter : Nat
  configKeys : List String
  pending : List (Config V)
  suggested : List (Config V)
  best : Option (Config V × ScoreMap)
  deriving DecidableEq, Repr

/-- Errors `GridSearchOptimizer.__init__` can raise: the `_sanity_check`
`ValueError` for unquantized tunables, and the `assert self._pending_configs`
failure on an empty grid. -/
inductive ConstructError where
  | unquantizedTunables
  | emptyGrid
  deriving DecidableEq, Repr

/-- `GridSearchOptimizer.__init__`: sanity-check the tunables (before any
grid is built), then build the grid into the pending set and start with an
empty suggested set and iteration counter 0. -/
def gridInit {V : Type} [DecidableEq V] (ts : List (Tunable V))
    (cfg : OptimizerConfig) : Except ConstructError (GridOptState V) :=
  if (gridSizeBound ts).isNone then
    Except.error ConstructError.unquantizedTunables
  else
    let g := getGrid ts
    if g.2.isEmpty then
      Except.error ConstructError.emptyGrid
    else
      Except.ok
        { tunables := ts
          targets := cfg.targets
          maxSuggestions := cfg.maxSuggestions
          startWithDefaults := cfg.startWithDefaults
          iter := 0
          configKeys := g.1
          pending := g.2
          suggested := []
          best := none }

/-- Errors `GridSearchOptimizer.suggest` can raise: the `KeyError` from
deleting a missing default from the pending dict, and the
`ValueError("No more pending configs to suggest.")` on exhaustion. -/
inductive SuggestError where
  | keyError
  | exhausted
  deriving DecidableEq, Repr

/-- Insertion into a Python `set`, modelled as a duplicate-free list. -/
def setInsert {V : Type} [DecidableEq V] (l : List V) (a : V) : List V :=
  if a ∈ l then l else l ++ [a]

/-- Modelled from the spec: the base optimizer's `suggest()` increments the
iteration counter once per call (and returns a copy of the tunables). -/
def baseSuggest {V : Type} (s : GridOptState V) : GridOptState V :=
  { s with iter := s.iter + 1 }

/-- `GridSearchOptimizer.suggest`: after the base-class iteration increment,
either consume the one-time defaults-first behavior (deleting the default
configuration from the pending dict, a `KeyError` when absent), or take the
head of the pending dict in generation order, regenerating a fresh grid
first when pending is empty and the iteration counter is still within the
suggestion budget.  Returns the suggested configuration (or the raised
error) together with the post-call state. -/
def suggest {V : Type} [DecidableEq V] (s : GridOptState V) :
    Except SuggestError (Config V) × GridOptState V :=
  let s := baseSuggest s
  if s.startWithDefaults then
    let s := { s with startWithDefaults := false }
    let d := defaultConfig s.tunables
    if d ∈ s.pending then
      (Except.ok d,
        { s with pending := s.pending.erase d, suggested := setInsert s.suggested d })
    else
      (Except.error SuggestError.keyError, s)
  else
    let s :=
      if s.pending.isEmpty && decide (s.iter ≤ s.maxSuggestions) then
        let g := getGrid s.tunables
        { s with configKeys := g.1, pending := g.2 }
      else s
    match s.pending with
    | [] => (Except.error SuggestError.exhausted, s)
    | c :: rest =>
        (Except.ok c,
          { s with pending := rest, suggested := setInsert s.suggested c })

/-- Association lookup in a score mapping. -/
def lookupScore (m : ScoreMap) (k : String) : Option Int :=
  (m.find? (fun kv => decide (kv.1 = k))).map (fun kv => kv.2)

/-- Sign convention: maximization targets are stored negated so that every
target is minimized internally. -/
def signAdjust : OptDir → Int → Int
  | OptDir.minimize, v => v
  | OptDir.maximize, v => -v

/-- Modelled from the spec: the base optimizer resolves a registration into
the sign-adjusted score mapping over the optimization targets (maximization
values negated), or `none` when the delegated registration is rejected
(trial not succeeded, or a malformed/missing score). -/
def resolveScores (targets : List (String × OptDir)) (status : Status)
    (score : Option ScoreMap) : Option ScoreMap :=
  if status = Status.succeeded then
    match score with
    | none => none
    | some m =>
        if (targets.map (fun td => lookupScore m td.1)).all Option.isSome then
          some (targets.map (fun td => (td.1, signAdjust td.2 ((lookupScore m td.1).getD 0))))
        else none
  else none

/-- Modelled from the spec: stored (sign-adjusted) scores are compared as a
minimization problem, lexicographically in target order. -/
def isBetter (targets : List (String × OptDir)) (new old : ScoreMap) : Bool :=
  match targets with
  | [] => false
  | (nm, _) :: rest =>
      match lookupScore new nm, lookupScore old nm with
      | some nv, some ov =>
          if nv < ov then true
          else if ov < nv then false
          else isBetter rest new old
      | _, _ => false

/-- Modelled from the spec: `TrackBestOptimizer.register` — resolve the
score through the base optimizer, and keep the incumbent best observation
unless the new stored score is strictly better. -/
def trackBestRegister {V : Type} (s : GridOptState V) (cfg : Config V)
    (status : Status) (score : Option ScoreMap) :
    Option ScoreMap × GridOptState V :=
  match resolveScores s.targets status score with
  | none => (none, s)
  | some sc =>
      match s.best with
      | none => (some sc, { s with best := some (cfg, sc) })
      | some (_, b) =>
          if isBetter s.targets sc b then (some sc, { s with best := some (cfg, sc) })
          else (some sc, s)

/-- `GridSearchOptimizer.register`: delegate score bookkeeping to the
best-tracking base class, then remove the configuration from the suggested
set; a missing entry only logs a warning (the `KeyError` is caught), so the
call is total and never raises. -/
def register {V : Type} [DecidableEq V] (s : GridOptState V) (cfg : Config V)
    (status : Status) (score : Option ScoreMap) :
    Option ScoreMap × GridOptState V :=
  let r := trackBestRegister s cfg status score
  if cfg ∈ r.2.suggested then
    (r.1, { r.2 with suggested := r.2.suggested.erase cfg })
  else
    (r.1, r.2)

/-- `GridSearchOptimizer.not_converged`: false once the iteration counter
exceeds the suggestion budget, and otherwise true exactly when the pending
set is non-empty. -/
def notConverged {V : Type} (s : GridOptState V) : Bool :=
  if s.maxSuggestions < s.iter then false
  else !s.pending.isEmpty

/-- Modelled from the spec: report the best observation with maximization
targets un-negated, paired with the configuration that produced it. -/
def getBestObservation {V : Type} (s : GridOptState V) :
    Option (ScoreMap × Config V) :=
  s.best.map (fun b =>
    (b.2.map (fun kv =>
        (kv.1,
          signAdjust
            (((s.targets.find? (fun td => decide (td.1 = kv.1))).map (fun td => td.2)).getD
              OptDir.minimize)
            kv.2)),
      b.1))

/-- Python `zip` over three sequences, truncating to the shortest. -/
def zip3 {A B C : Type} : List A → List B → List C → List (A × B × C)
  | a :: as, b :: bs, c :: cs => (a, b, c) :: zip3 as bs cs
  | _, _, _ => []

/-- Modelled from the spec: the validation the base optimizer performs on a
bulk-registration batch — it fails (short-circuiting before any individual
registration) when the numbers of configurations, scores, and status values
(when given) do not match. -/
def baseBulkValidate {V : Type} (configs : List (Config V))
    (scores : List (Option ScoreMap)) (status : Option (List Status)) : Bool :=
  decide (configs.length = scores.length) &&
    (match status with
     | none => true
     | some st => decide (st.length = configs.length))

/-- `GridSearchOptimizer.bulk_register`: short-circuit to `false` when the
base validation fails; otherwise default all statuses to SUCCEEDED when
omitted and replay every triple through `register`. -/
def bulkRegister {V : Type} [DecidableEq V] (s : GridOptState V)
    (configs : List (Config V)) (scores : List (Option ScoreMap))
    (status : Option (List Status)) : Bool × GridOptState V :=
  if baseBulkValidate configs scores status then
    let st :=
      match status with
      | none => List.replicate configs.length Status.succeeded
      | some st => st
    (true,
      (zip3 configs scores st).foldl
        (fun s t => (register s t.1 t.2.2 t.2.1).2) s)
  else
    (false, s)

/-- States of the optimizer reachable from a successful construction by any
sequence of `suggest` and `register` calls (states after a raised exception
included, since the Python object survives it). -/
inductive Reachable {V : Type} [DecidableEq V] : GridOptState V → Prop where
  | init (ts : List (Tunable V)) (cfg : OptimizerConfig) (s : GridOptState V) :
      gridInit ts cfg = Except.ok s → Reachable s
  | suggestStep (s s' : GridOptState V) (r : Except SuggestError (Config V)) :
      Reachable s → suggest s = (r, s') → Reachable s'
  | registerStep (s s' : GridOptState V) (c : Config V) (st : Status)
      (sc : Option ScoreMap) (r : Option ScoreMap) :
      Reachable s → register s c st sc = (r, s') → Reachable s'

/-- Whether a `suggest` call on this state would regenerate the grid
(the restart path: no defaults-first, pending empty, and the incremented
iteration counter still within budget). -/
def restarts {V : Type} (s : GridOptState V) : Bool :=
  !s.startWithDefaults && s.pending.isEmpty && decide (s.iter + 1 ≤ s.maxSuggestions)

/-- States reachable as in `Reachable`, but along traces in which no
`suggest` call ever took the grid-regeneration (restart) path. -/
inductive ReachableNR {V : Type} [DecidableEq V] : GridOptState V → Prop where
  | init (ts : List (Tunable V)) (cfg : OptimizerConfig) (s : GridOptState V) :
      gridInit ts cfg = Except.ok s → ReachableNR s
  | suggestStep (s s' : GridOptState V) (r : Except SuggestError (Config V)) :
      ReachableNR s → restarts s = false → suggest s = (r, s') → ReachableNR s'
  | registerStep (s s' : GridOptState V) (c : Config V) (st : Status)
      (sc : Option ScoreMap) (r : Option ScoreMap) :
      ReachableNR s → register s c st sc = (r, s') → ReachableNR s'

/-- Outcomes of the host-service calls `vm_start` / `wait_vm_operation`
consumed by `OSEnv.setup` (the `SupportsVMOps` service), abstracted as data:
the result of starting the host, and the final status of waiting out a
still-running operation with the given operation parameters. -/
structure VMService (P : Type) where
  vmStartResult : Status × P
  waitVmOperation : P → Status

/-- The `OSEnv` state the modelled method touches. -/
structure OSEnvState where
  isReady : Bool
  deriving DecidableEq, Repr

/-- The final status `OSEnv.setup` observes: the `vm_start` status, waited
out via `wait_vm_operation` whenever it reports a pending status. -/
def osFinalStatus {P : Type} (svc : VMService P) : Status :=
  if (svc.vmStartResult.1).isPending then svc.waitVmOperation svc.vmStartResult.2
  else svc.vmStartResult.1

/-- `OSEnv.setup`: the parent environment's setup (base `Environment`, not
among the sources) is abstracted as its boolean outcome `parentOk`.  On
parent failure, return false immediately, without starting the host and
leaving the ready flag untouched; otherwise start the host, wait out a
pending operation, record readiness as "final status SUCCEEDED or READY",
and return that flag.  The result is (returned value, new state, whether
`vm_start` was called). -/
def osSetup {P : Type} (parentOk : Bool) (svc : VMService P) (s : OSEnvState) :
    Bool × OSEnvState × Bool :=
  if !parentOk then (false, s, false)
  else
    let st := osFinalStatus svc
    let ready := st == Status.succeeded || st == Status.ready
    (ready, { isReady := ready }, true)

/-- A one-tunable space with two values, used by the concrete traces. -/
def tunX : Tunable Nat := ⟨"x", true, [0, 1], 0⟩

/-- Optimizer options for trace A: budget 10, no defaults-first, one
maximization target. -/
def cfgA : OptimizerConfig := ⟨10, false, [("score", OptDir.maximize)]⟩

/-- Trace A, state after construction over `tunX`. -/
def sA0 : GridOptState Nat :=
  { tunables := [tunX], targets := [("score", OptDir.maximize)],
    maxSuggestions := 10, startWithDefaults := false, iter := 0,
    configKeys := ["x"], pending := [[0], [1]], suggested := [], best := none }

/-- Trace A, after one `suggest`. -/
def sA1 : GridOptState Nat :=
  { sA0 with iter := 1, pending := [[1]], suggested := [[0]] }

/-- Trace A, after two `suggest` calls: pending exhausted, both
configurations outstanding. -/
def sA2 : GridOptState Nat :=
  { sA0 with iter := 2, pending := [], suggested := [[0], [1]] }

/-- Trace A, after a third `suggest` call, which regenerated the grid and
re-issued `[0]` while it was still outstanding. -/
def sA3 : GridOptState Nat :=
  { sA0 with iter := 3, pending := [[1]], suggested := [[0], [1]] }

/-- Trace D (scoring): after registering `[0]` with score 42 on the
maximization target. -/
def sD3 : GridOptState Nat :=
  { sA0 with
    iter := 2
    pending := []
    suggested := [[1]]
    best := some ([0], [("score", -42)]) }

/-- Trace D: after further registering `[1]` with score 7. -/
def sD4 : GridOptState Nat :=
  { sA0 with
    iter := 2
    pending := []
    suggested := []
    best := some ([0], [("score", -42)]) }

/-- A tunable whose default value 1 is not among its enumerated values. -/
def tunB : Tunable Nat := ⟨"x", true, [0], 1⟩

/-- Optimizer options with defaults-first enabled. -/
def cfgB : OptimizerConfig := ⟨10, true, [("score", OptDir.maximize)]⟩

/-- Trace B, state after construction over `tunB` with defaults-first. -/
def sB0 : GridOptState Nat :=
  { tunables := [tunB], targets := [("score", OptDir.maximize)],
    maxSuggestions := 10, startWithDefaults := true, iter := 0,
    configKeys := ["x"], pending := [[0]], suggested := [], best := none }

/-- A tunable whose default value 1 is among its enumerated values. -/
def tunC : Tunable Nat := ⟨"x", true, [0, 1], 1⟩

/-- Trace C, state after construction over `tunC` with defaults-first. -/
def sC0 : GridOptState Nat :=
  { tunables := [tunC], targets := [("score", OptDir.maximize)],
    maxSuggestions := 10, startWithDefaults := true, iter := 0,
    configKeys := ["x"], pending := [[0], [1]], suggested := [], best := none }

/-- Optimizer options for trace E: budget 1 (smaller than the grid). -/
def cfgE : OptimizerConfig := ⟨1, false, [("score", OptDir.maximize)]⟩

/-- Trace E, state after construction over `tunX` with budget 1. -/
def sE0 : GridOptState Nat :=
  { tunables := [tunX], targets := [("score", OptDir.maximize)],
    maxSuggestions := 1, startWithDefaults := false, iter := 0,
    configKeys := ["x"], pending := [[0], [1]], suggested := [], best := none }

/-- Trace E, after one `suggest`. -/
def sE1 : GridOptState Nat :=
  { sE0 with iter := 1, pending := [[1]], suggested := [[0]] }

/-- Trace E, after two `suggest` calls: pending exhausted, budget spent. -/
def sE2 : GridOptState Nat :=
  { sE0 with iter := 2, pending := [], suggested := [[0], [1]] }

/-- A host service whose `vm_start` succeeds immediately. -/
def svcGood : VMService Unit :=
  ⟨(Status.succeeded, ()), fun _ => Status.succeeded⟩

theorem dictKeys_subset {V : Type} [DecidableEq V] :
    ∀ (l : List V) (x : V), x ∈ dictKeys l → x ∈ l := by
  intro l
  induction l with
  | nil => intro x hx; simp [dictKeys] at hx
  | cons a l ih =>
      intro x hx
      simp only [dictKeys, List.mem_cons, List.mem_filter] at hx
      rcases hx with h | ⟨h, _⟩
      · simp [h]
      · exact List.mem_cons_of_mem _ (ih x h)

theorem dictKeys_nodup {V : Type} [DecidableEq V] (l : List V) :
    (dictKeys l).Nodup := by
  induction l with
  | nil => simp [dictKeys]
  | cons a l ih =>
      simp only [dictKeys]
      refine List.Nodup.cons ?_ (List.Nodup.filter _ ih)
      intro hmem
      have := (List.mem_filter.mp hmem).2
      simp at this

theorem dictKeys_eq_self {V : Type} [DecidableEq V] {l : List V}
    (h : l.Nodup) : dictKeys l = l := by
  induction l with
  | nil => rfl
  | cons a l ih =>
      have hnd := (List.nodup_cons.mp h).2
      have hna := (List.nodup_cons.mp h).1
      simp only [dictKeys, ih hnd]
      congr 1
      refine List.filter_eq_self.mpr ?_
      intro x hx
      simp only [decide_eq_true_eq]
      intro hxa
      exact hna (hxa ▸ hx)

theorem crossFold_length {V : Type} (R : List (List V)) :
    ∀ (vs : List V),
      (vs.foldr (fun v acc => (R.map (fun c => v :: c)) ++ acc) []).length =
        vs.length * R.length := by
  intro vs
  induction vs with
  | nil => simp
  | cons v vs ih =>
      simp [List.foldr_cons, List.length_append, ih, Nat.succ_mul, Nat.add_comm]

theorem gridCross_length {V : Type} :
    ∀ (ls : List (List V)),
      (gridCross ls).length = (ls.map List.length).prod := by
  intro ls
  induction ls with
  | nil => simp [gridCross]
  | cons vs rest ih =>
      simp only [gridCross, List.map_cons, List.prod_cons]
      rw [crossFold_length, ih]

theorem mem_crossFold {V : Type} (R : List (List V)) :
    ∀ (vs : List V) (x : List V),
      x ∈ vs.foldr (fun v acc => (R.map (fun c => v :: c)) ++ acc) [] ↔
        ∃ v, v ∈ vs ∧ ∃ c, c ∈ R ∧ x = v :: c := by
  intro vs
  induction vs with
  | nil => simp
  | cons v vs ih =>
      intro x
      simp only [List.foldr_cons, List.mem_append, List.mem_map, ih, List.mem_cons]
      constructor
      · rintro (⟨c, hc, rfl⟩ | ⟨w, hw, c, hc, rfl⟩)
        · exact ⟨v, Or.inl rfl, c, hc, rfl⟩
        · exact ⟨w, Or.inr hw, c, hc, rfl⟩
      · rintro ⟨w, hw | hw, c, hc, rfl⟩
        · exact Or.inl ⟨c, hc, by rw [hw]⟩
        · exact Or.inr ⟨w, hw, c, hc, rfl⟩

theorem crossFold_nodup {V : Type} {R : List (List V)} (hR : R.Nodup) :
    ∀ {vs : List V}, vs.Nodup →
      (vs.foldr (fun v acc => (R.map (fun c => v :: c)) ++ acc) []).Nodup := by
  intro vs
  induction vs with
  | nil => intro _; simp
  | cons v vs ih =>
      intro h
      have hv := (List.nodup_cons.mp h).1
      have hvs := (List.nodup_cons.mp h).2
      simp only [List.foldr_cons]
      refine List.Nodup.append ?_ (ih hvs) ?_
      · exact hR.map (fun a b hab => by injection hab)
      · intro x hx1 hx2
        rcases List.mem_map.mp hx1 with ⟨c, _, rfl⟩
        rcases (mem_crossFold R vs _).mp hx2 with ⟨w, hw, d, _, heq⟩
        have : v = w := by injection heq
        exact hv (this ▸ hw)

theorem gridCross_nodup {V : Type} :
    ∀ {ls : List (List V)}, (∀ l ∈ ls, l.Nodup) → (gridCross ls).Nodup := by
  intro ls
  induction ls with
  | nil => intro _; simp [gridCross]
  | cons vs rest ih =>
      intro h
      have hrest : (gridCross rest).Nodup := ih (fun l hl => h l (List.mem_cons_of_mem _ hl))
      exact crossFold_nodup hrest (h vs (List.mem_cons_self _ _))

theorem gridSizeBound_finite {V : Type} {ts : List (Tunable V)}
    (h : ∀ t ∈ ts, t.quantized = true ∧ t.values ≠ []) :
    gridSizeBound ts = some ((ts.map (fun t => t.values.length)).prod) := by
  induction ts with
  | nil => rfl
  | cons t ts ih =>
      have ht := h t (List.mem_cons_self _ _)
      have hts := ih (fun u hu => h u (List.mem_cons_of_mem _ hu))
      have hcard : cardOrInf t = some t.values.length := by
        rcases hv : t.values.length with _ | n
        · exact absurd (List.eq_nil_of_length_eq_zero hv) ht.2
        · simp [cardOrInf, Tunable.cardinality, ht.1, hv]
      simp only [gridSizeBound, List.foldr_cons] at *
      rw [hcard, hts]
      simp [List.prod_cons]

/-- C1: for a tunable space of finite-cardinality tunables (each tunable's
`values` lists its cardinality-many distinct values), construction succeeds
and the pending set is exactly the full deduplicated cross-product of the
tunables' enumerable values, of size the product of the cardinalities. -/
theorem grid_pending_full_product {V : Type} [DecidableEq V]
    (ts : List (Tunable V)) (cfg : OptimizerConfig)
    (hq : ∀ t ∈ ts, t.quantized = true) (hne : ∀ t ∈ ts, t.values ≠ [])
    (hnd : ∀ t ∈ ts, t.values.Nodup) :
    ∃ s : GridOptState V, gridInit ts cfg = Except.ok s ∧
      s.pending = dictKeys (gridCross (ts.map (fun t => t.values))) ∧
      s.pending.length = (ts.map (fun t => t.values.length)).prod := by
  have hfin := gridSizeBound_finite (fun t ht => ⟨hq t ht, hne t ht⟩)
  have hcross : (gridCross (ts.map (fun t => t.values))).Nodup := by
    refine gridCross_nodup ?_
    intro l hl
    rcases List.mem_map.mp hl with ⟨t, ht, rfl⟩
    exact hnd t ht
  have hdict : dictKeys (gridCross (ts.map (fun t => t.values))) =
      gridCross (ts.map (fun t => t.values)) := dictKeys_eq_self hcross
  have hlen : (gridCross (ts.map (fun t => t.values))).length =
      (ts.map (fun t => t.values.length)).prod := by
    rw [gridCross_length, List.map_map]
    rfl
  have hpos : 0 < (ts.map (fun t => t.values.length)).prod := by
    refine List.prod_pos ?_
    intro n hn
    rcases List.mem_map.mp hn with ⟨t, ht, rfl⟩
    exact List.length_pos.mpr (hne t ht)
  have hnonempty : (getGrid ts).2.isEmpty = false := by
    simp only [getGrid, hdict, List.isEmpty_eq_false_iff_exists_mem]
    rcases List.exists_mem_of_length_pos (by rw [hlen]; exact hpos) with ⟨c, hc⟩
    exact ⟨c, hc⟩
  refine ⟨{ tunables := ts, targets := cfg.targets, maxSuggestions := cfg.maxSuggestions,
            startWithDefaults := cfg.startWithDefaults, iter := 0,
            configKeys := (getGrid ts).1, pending := (getGrid ts).2,
            suggested := [], best := none }, ?_, ?_, ?_⟩
  · simp [gridInit, hfin, hnonempty]
  · simp [getGrid]
  · simp only [getGrid, hdict]
    exact hlen

/-- Witness for C1 at a concrete two-tunable space: 2 * 3 = 6 pending
configurations, exactly the cross-product. -/
theorem grid_pending_full_product_witness :
    ∃ s : GridOptState Nat,
      gridInit
        [⟨"a", true, [0, 1], 0⟩, ⟨"b", true, [0, 1, 2], 0⟩]
        ⟨10, false, [("score", OptDir.maximize)]⟩ = Except.ok s ∧
      s.pending = dictKeys (gridCross
        ([⟨"a", true, [0, 1], 0⟩, ⟨"b", true, [0, 1, 2], 0⟩].map
          (fun t : Tunable Nat => t.values))) ∧
      s.pending.length =
        ([⟨"a", true, [0, 1], 0⟩, ⟨"b", true, [0, 1, 2], 0⟩].map
          (fun t : Tunable Nat => t.values.length)).prod :=
  grid_pending_full_product _ _ (by decide) (by decide) (by decide)

theorem mem_setInsert {V : Type} [DecidableEq V] (l : List V) (a x : V) :
    x ∈ setInsert l a ↔ x ∈ l ∨ x = a := by
  unfold setInsert
  split
  · constructor
    · exact fun h => Or.inl h
    · rintro (h | rfl)
      · exact h
      · assumption
  · simp

theorem suggest_tunables_eq {V : Type} [DecidableEq V] (s : GridOptState V) :
    (suggest s).2.tunables = s.tunables := by
  unfold suggest baseSuggest
  dsimp only
  split
  · split <;> rfl
  · split <;> split <;> rfl

theorem register_characterize {V : Type} [DecidableEq V] (s : GridOptState V)
    (c : Config V) (st : Status) (sc : Option ScoreMap) :
    ∃ b, register s c st sc =
      (resolveScores s.targets st sc,
        { s with
            best := b
            suggested := if c ∈ s.suggested then s.suggested.erase c else s.suggested }) := by
  unfold register trackBestRegister
  cases hr : resolveScores s.targets st sc with
  | none =>
      refine ⟨s.best, ?_⟩
      dsimp only
      split <;> simp
  | some v =>
      cases hb : s.best with
      | none =>
          refine ⟨some (c, v), ?_⟩
          dsimp only
          split <;> simp
      | some p =>
          obtain ⟨pc, pb⟩ := p
          by_cases hbt : isBetter s.targets v pb
          · refine ⟨some (c, v), ?_⟩
            dsimp only
            rw [if_pos hbt]
            dsimp only
            split <;> simp
          · refine ⟨some (pc, pb), ?_⟩
            dsimp only
            rw [if_neg hbt]
            dsimp only
            rw [← hb]
            split <;> simp

theorem suggest_defaults_branch {V : Type} [DecidableEq V] (s : GridOptState V)
    (hswd : s.startWithDefaults = true) :
    (defaultConfig s.tunables ∈ s.pending →
        suggest s = (Except.ok (defaultConfig s.tunables),
          { s with
              iter := s.iter + 1
              startWithDefaults := false
              pending := s.pending.erase (defaultConfig s.tunables)
              suggested := setInsert s.suggested (defaultConfig s.tunables) })) ∧
    (defaultConfig s.tunables ∉ s.pending →
        suggest s = (Except.error SuggestError.keyError,
          { s with iter := s.iter + 1, startWithDefaults := false })) := by
  constructor <;> intro h <;> simp [suggest, baseSuggest, hswd, h]

theorem suggest_head_branch {V : Type} [DecidableEq V] (s : GridOptState V)
    (hswd : s.startWithDefaults = false) (c : Config V) (rest : List (Config V))
    (hp : s.pending = c :: rest) :
    suggest s = (Except.ok c,
      { s with
          iter := s.iter + 1
          pending := rest
          suggested := setInsert s.suggested c }) := by
  simp [suggest, baseSuggest, hswd, hp]

theorem suggest_else_branch {V : Type} [DecidableEq V] (s : GridOptState V)
    (hswd : s.startWithDefaults = false) (hpe : s.pending = []) :
    (s.iter + 1 ≤ s.maxSuggestions →
        ∀ c rest, (getGrid s.tunables).2 = c :: rest →
          suggest s = (Except.ok c,
            { s with
                iter := s.iter + 1
                configKeys := (getGrid s.tunables).1
                pending := rest
                suggested := setInsert s.suggested c })) ∧
    (s.maxSuggestions < s.iter + 1 →
        suggest s = (Except.error SuggestError.exhausted,
          { s with iter := s.iter + 1 })) := by
  constructor
  · intro hle c rest hg
    simp [suggest, baseSuggest, hswd, hpe, hle, hg]
  · intro hgt
    have hnle : ¬(s.iter + 1 ≤ s.maxSuggestions) := Nat.not_le.mpr hgt
    simp [suggest, baseSuggest, hswd, hpe, hnle]

theorem gridInit_ok_fields {V : Type} [DecidableEq V] {ts : List (Tunable V)}
    {cfg : OptimizerConfig} {s : GridOptState V}
    (h : gridInit ts cfg = Except.ok s) :
    s.tunables = ts ∧ s.pending = (getGrid ts).2 ∧ s.suggested = [] ∧
      (getGrid ts).2 ≠ [] := by
  unfold gridInit at h
  split at h
  · cases h
  · dsimp only at h
    split at h
    · cases h
    · rename_i hne
      cases h
      refine ⟨rfl, rfl, rfl, ?_⟩
      intro hnil
      simp [hnil] at hne

theorem register_tunables_eq {V : Type} [DecidableEq V] (s : GridOptState V)
    (c : Config V) (st : Status) (sc : Option ScoreMap) :
    (register s c st sc).2.tunables = s.tunables := by
  obtain ⟨b, hb⟩ := register_characterize s c st sc
  rw [hb]

theorem reachable_grid_ne {V : Type} [DecidableEq V] :
    ∀ s : GridOptState V, Reachable s → (getGrid s.tunables).2 ≠ [] := by
  intro s h
  induction h with
  | init ts cfg s hinit =>
      obtain ⟨ht, -, -, hne⟩ := gridInit_ok_fields hinit
      rw [ht]
      exact hne
  | suggestStep s s' r hre hstep ih =>
      have hs : s' = (suggest s).2 := by rw [hstep]
      rw [hs, suggest_tunables_eq]
      exact ih
  | registerStep s s' c st sc r hre hstep ih =>
      have hs : s' = (register s c st sc).2 := by rw [hstep]
      rw [hs, register_tunables_eq]
      exact ih

theorem reachableNR_invariant {V : Type} [DecidableEq V] :
    ∀ s : GridOptState V, ReachableNR s →
      s.pending.Nodup ∧ ∀ c ∈ s.pending, c ∉ s.suggested := by
  intro s h
  induction h with
  | init ts cfg s hinit =>
      obtain ⟨-, hp, hsg, -⟩ := gridInit_ok_fields hinit
      constructor
      · rw [hp]
        exact dictKeys_nodup _
      · intro c hc
        rw [hsg]
        simp
  | suggestStep s s' r hre hnr hstep ih =>
      have hs : s' = (suggest s).2 := by rw [hstep]
      subst hs
      by_cases hswd : s.startWithDefaults = true
      · by_cases hd : defaultConfig s.tunables ∈ s.pending
        · rw [(suggest_defaults_branch s hswd).1 hd]
          dsimp only
          constructor
          · exact ih.1.erase _
          · intro c hc
            obtain ⟨hne, hmem⟩ := (List.Nodup.mem_erase_iff ih.1).mp hc
            rw [mem_setInsert]
            rintro (h | h)
            · exact ih.2 c hmem h
            · exact hne h
        · rw [(suggest_defaults_branch s hswd).2 hd]
          dsimp only
          exact ih
      · have hswd' : s.startWithDefaults = false := by
          simpa using hswd
        cases hp : s.pending with
        | nil =>
            have hgt : s.maxSuggestions < s.iter + 1 := by
              unfold restarts at hnr
              simp [hswd', hp] at hnr
              omega
            rw [(suggest_else_branch s hswd' hp).2 hgt]
            dsimp only
            rw [hp]
            exact ⟨List.nodup_nil, by simp⟩
        | cons a rest =>
            rw [suggest_head_branch s hswd' a rest hp]
            dsimp only
            have hnd : (a :: rest).Nodup := hp ▸ ih.1
            constructor
            · exact (List.nodup_cons.mp hnd).2
            · intro c hc
              rw [mem_setInsert]
              rintro (h | h)
              · exact ih.2 c (by rw [hp]; exact List.mem_cons_of_mem _ hc) h
              · exact (List.nodup_cons.mp hnd).1 (h ▸ hc)
  | registerStep s s' c st sc r hre hstep ih =>
      have hs : s' = (register s c st sc).2 := by rw [hstep]
      subst hs
      obtain ⟨b, hb⟩ := register_characterize s c st sc
      rw [hb]
      dsimp only
      refine ⟨ih.1, ?_⟩
      intro x hx
      split
      · intro hmem
        exact ih.2 x hx (List.mem_of_mem_erase hmem)
      · exact ih.2 x hx

theorem reachable_sA0 : Reachable sA0 :=
  Reachable.init [tunX] cfgA sA0 rfl

theorem reachable_sA1 : Reachable sA1 :=
  Reachable.suggestStep sA0 sA1 _ reachable_sA0 rfl

theorem reachable_sA2 : Reachable sA2 :=
  Reachable.suggestStep sA1 sA2 _ reachable_sA1 rfl

theorem reachable_sA3 : Reachable sA3 :=
  Reachable.suggestStep sA2 sA3 _ reachable_sA2 rfl

theorem reachableNR_sA1 : ReachableNR sA1 :=
  ReachableNR.suggestStep sA0 sA1 _ (ReachableNR.init [tunX] cfgA sA0 rfl) rfl rfl

/-- C2 counterexample: trace-A state `sA2` is reachable, its iteration
counter 2 does not exceed the budget 10, and yet `not_converged()` already
returns false (the pending set is empty), refuting the claimed equivalence
with budget exhaustion alone. -/
theorem notConverged_budget_counterexample :
    Reachable sA2 ∧ notConverged sA2 = false ∧ sA2.iter ≤ sA2.maxSuggestions :=
  ⟨reachable_sA2, rfl, by decide⟩

/-- C2 (amended): for every reachable optimizer state, `not_converged()`
returns false exactly when the iteration counter exceeds the suggestion
budget or the pending set is empty. -/
theorem notConverged_iff_budget_or_empty {V : Type} [DecidableEq V]
    (s : GridOptState V) (_hre : Reachable s) :
    notConverged s = false ↔ (s.maxSuggestions < s.iter ∨ s.pending = []) := by
  unfold notConverged
  split
  · rename_i h
    simp [h]
  · rename_i h
    simp [h, List.isEmpty_iff]

/-- Witness for the amended C2 at the reachable state `sA2`. -/
theorem notConverged_iff_budget_or_empty_witness :
    notConverged sA2 = false ↔ (sA2.maxSuggestions < sA2.iter ∨ sA2.pending = []) :=
  notConverged_iff_budget_or_empty sA2 reachable_sA2

/-- C3 counterexample: along trace A the grid restart puts `[1]` back into
pending while it is still in the suggested set, and the same call re-issues
the still-outstanding `[0]`; both halves of the claimed invariant fail in
reachable states. -/
theorem pending_suggested_overlap_counterexample :
    Reachable sA3 ∧ ([1] : Config Nat) ∈ sA3.pending ∧
      ([1] : Config Nat) ∈ sA3.suggested ∧
      Reachable sA2 ∧ ([0] : Config Nat) ∈ sA2.suggested ∧
      suggest sA2 = (Except.ok [0], sA3) :=
  ⟨reachable_sA3, by decide, by decide, reachable_sA2, by decide, rfl⟩

/-- C3 (amended): along any trace of `suggest`/`register` calls in which no
grid restart occurs, no configuration is ever in both the pending and the
suggested set, and a `suggest` call that does not itself restart the grid
never returns a configuration that is currently suggested. -/
theorem no_pending_suggested_overlap {V : Type} [DecidableEq V]
    (s : GridOptState V) (hre : ReachableNR s) :
    (∀ c ∈ s.pending, c ∉ s.suggested) ∧
    (restarts s = false →
      ∀ c s', suggest s = (Except.ok c, s') → c ∉ s.suggested) := by
  obtain ⟨hnd, hdisj⟩ := reachableNR_invariant s hre
  refine ⟨hdisj, ?_⟩
  intro hnr c s' hstep
  by_cases hswd : s.startWithDefaults = true
  · by_cases hd : defaultConfig s.tunables ∈ s.pending
    · rw [(suggest_defaults_branch s hswd).1 hd] at hstep
      have hc : defaultConfig s.tunables = c := by
        have h1 := congrArg Prod.fst hstep
        simpa using h1
      exact hc ▸ hdisj _ hd
    · rw [(suggest_defaults_branch s hswd).2 hd] at hstep
      have h1 := congrArg Prod.fst hstep
      simp at h1
  · have hswd' : s.startWithDefaults = false := by simpa using hswd
    cases hp : s.pending with
    | nil =>
        have hgt : s.maxSuggestions < s.iter + 1 := by
          unfold restarts at hnr
          simp [hswd', hp] at hnr
          omega
        rw [(suggest_else_branch s hswd' hp).2 hgt] at hstep
        have h1 := congrArg Prod.fst hstep
        simp at h1
    | cons a rest =>
        rw [suggest_head_branch s hswd' a rest hp] at hstep
        have hc : a = c := by
          have h1 := congrArg Prod.fst hstep
          simpa using h1
        exact hc ▸ hdisj a (by rw [hp]; exact List.mem_cons_self _ _)

/-- Witness for the amended C3 at the restart-free reachable state `sA1`. -/
theorem no_pending_suggested_overlap_witness :
    (∀ c ∈ sA1.pending, c ∉ sA1.suggested) ∧
    (restarts sA1 = false →
      ∀ c s', suggest sA1 = (Except.ok c, s') → c ∉ sA1.suggested) :=
  no_pending_suggested_overlap sA1 reachableNR_sA1

/-- C4 counterexample: with `start_with_defaults=true` and a default
configuration that is not part of the enumerated grid, the first `suggest()`
raises a `KeyError` instead of succeeding. -/
theorem defaults_missing_keyerror_counterexample :
    gridInit [tunB] cfgB = Except.ok sB0 ∧ sB0.startWithDefaults = true ∧
      (suggest sB0).1 = Except.error SuggestError.keyError :=
  ⟨rfl, rfl, rfl⟩

/-- C4 (amended): on a defaults-first call, when the default configuration
is in the pending set, `suggest` returns exactly the default configuration,
moves it from the pending to the suggested set, and consumes the one-time
flag; when the default configuration is not in the pending set, the call
raises a `KeyError`. -/
theorem defaults_first_suggest {V : Type} [DecidableEq V] (s : GridOptState V)
    (hswd : s.startWithDefaults = true) :
    (defaultConfig s.tunables ∈ s.pending →
        suggest s = (Except.ok (defaultConfig s.tunables),
          { s with
              iter := s.iter + 1
              startWithDefaults := false
              pending := s.pending.erase (defaultConfig s.tunables)
              suggested := setInsert s.suggested (defaultConfig s.tunables) })) ∧
    (defaultConfig s.tunables ∉ s.pending →
        (suggest s).1 = Except.error SuggestError.keyError ∧
        (suggest s).2.pending = s.pending ∧
        (suggest s).2.suggested = s.suggested ∧
        (suggest s).2.startWithDefaults = false) := by
  have hb := suggest_defaults_branch s hswd
  refine ⟨hb.1, ?_⟩
  intro hd
  rw [hb.2 hd]
  exact ⟨rfl, rfl, rfl, rfl⟩

/-- Witness for the amended C4 at state `sC0`, whose default `[1]` is in the
pending set. -/
theorem defaults_first_suggest_witness :
    (defaultConfig sC0.tunables ∈ sC0.pending →
        suggest sC0 = (Except.ok (defaultConfig sC0.tunables),
          { sC0 with
              iter := sC0.iter + 1
              startWithDefaults := false
              pending := sC0.pending.erase (defaultConfig sC0.tunables)
              suggested := setInsert sC0.suggested (defaultConfig sC0.tunables) })) ∧
    (defaultConfig sC0.tunables ∉ sC0.pending →
        (suggest sC0).1 = Except.error SuggestError.keyError ∧
        (suggest sC0).2.pending = sC0.pending ∧
        (suggest sC0).2.suggested = sC0.suggested ∧
        (suggest sC0).2.startWithDefaults = false) :=
  defaults_first_suggest sC0 rfl

/-- C5: a non-defaults `suggest` call on an empty pending set regenerates a
full fresh grid and returns its head (in generation order) while the
incremented iteration counter is within the suggestion budget, and raises
the exhaustion error once the budget is exceeded (the only way regeneration
produces nothing, the grid of a successfully constructed optimizer being
non-empty). -/
theorem suggest_restart_or_exhaust {V : Type} [DecidableEq V]
    (s : GridOptState V) (hre : Reachable s)
    (hswd : s.startWithDefaults = false) (hpe : s.pending = []) :
    (s.iter + 1 ≤ s.maxSuggestions →
        ∃ c rest, (getGrid s.tunables).2 = c :: rest ∧
          suggest s = (Except.ok c,
            { s with
                iter := s.iter + 1
                configKeys := (getGrid s.tunables).1
                pending := rest
                suggested := setInsert s.suggested c })) ∧
    (s.maxSuggestions < s.iter + 1 →
        (suggest s).1 = Except.error SuggestError.exhausted) := by
  have hg := reachable_grid_ne s hre
  have hb := suggest_else_branch s hswd hpe
  constructor
  · intro hle
    cases hgr : (getGrid s.tunables).2 with
    | nil => exact absurd hgr hg
    | cons c rest => exact ⟨c, rest, rfl, hb.1 hle c rest hgr⟩
  · intro hgt
    rw [hb.2 hgt]

/-- Witness for C5 at the reachable empty-pending state `sA2`. -/
theorem suggest_restart_or_exhaust_witness :
    (sA2.iter + 1 ≤ sA2.maxSuggestions →
        ∃ c rest, (getGrid sA2.tunables).2 = c :: rest ∧
          suggest sA2 = (Except.ok c,
            { sA2 with
                iter := sA2.iter + 1
                configKeys := (getGrid sA2.tunables).1
                pending := rest
                suggested := setInsert sA2.suggested c })) ∧
    (sA2.maxSuggestions < sA2.iter + 1 →
        (suggest sA2).1 = Except.error SuggestError.exhausted) :=
  suggest_restart_or_exhaust sA2 reachable_sA2 rfl rfl

theorem gridSizeBound_infinite {V : Type} {ts : List (Tunable V)}
    (h : ∃ t ∈ ts, t.quantized = false) : gridSizeBound ts = none := by
  induction ts with
  | nil =>
      rcases h with ⟨t, ht, _⟩
      cases ht
  | cons a ts ih =>
      rcases h with ⟨t, ht, hq⟩
      rcases List.mem_cons.mp ht with rfl | hmem
      · have hc : cardOrInf t = none := by
          simp [cardOrInf, Tunable.cardinality, hq]
        simp only [gridSizeBound, List.foldr_cons]
        rw [hc]
      · have hrest := ih ⟨t, hmem, hq⟩
        simp only [gridSizeBound, List.foldr_cons] at *
        rw [hrest]
        cases cardOrInf a <;> rfl

/-- C6: constructing the optimizer over a tunable space with any tunable
that is not finitely quantized fails with the sanity-check construction
error, raised before any grid is built; no optimizer state results. -/
theorem unquantized_construction_fails {V : Type} [DecidableEq V]
    (ts : List (Tunable V)) (cfg : OptimizerConfig)
    (h : ∃ t ∈ ts, t.quantized = false) :
    gridInit ts cfg = Except.error ConstructError.unquantizedTunables := by
  unfold gridInit
  rw [gridSizeBound_infinite h]
  rfl

/-- Witness for C6 at a concrete space with one unquantized tunable. -/
theorem unquantized_construction_fails_witness :
    gridInit [(⟨"u", false, [], 0⟩ : Tunable Nat)] cfgA =
      Except.error ConstructError.unquantizedTunables :=
  unquantized_construction_fails _ _ ⟨_, List.mem_cons_self _ _, rfl⟩

/-- C7: `register` (a total function in this model, as in the source, where
the `KeyError` is caught and only logged) leaves both the pending and the
suggested set unchanged when the configuration is not currently suggested,
and removes exactly that entry from the suggested set when it is. -/
theorem register_unknown_config_safe {V : Type} [DecidableEq V]
    (s : GridOptState V) (cfg : Config V) (st : Status) (sc : Option ScoreMap) :
    (cfg ∉ s.suggested →
        (register s cfg st sc).2.pending = s.pending ∧
        (register s cfg st sc).2.suggested = s.suggested) ∧
    (cfg ∈ s.suggested →
        (register s cfg st sc).2.pending = s.pending ∧
        (register s cfg st sc).2.suggested = s.suggested.erase cfg) := by
  obtain ⟨b, hb⟩ := register_characterize s cfg st sc
  rw [hb]
  constructor <;> intro h <;> simp [h]

/-- Witness for C7 at the state `sA2` and an unknown configuration. -/
theorem register_unknown_config_safe_witness :
    (([5] : Config Nat) ∉ sA2.suggested →
        (register sA2 [5] Status.succeeded (some [("score", 1)])).2.pending = sA2.pending ∧
        (register sA2 [5] Status.succeeded (some [("score", 1)])).2.suggested = sA2.suggested) ∧
    (([5] : Config Nat) ∈ sA2.suggested →
        (register sA2 [5] Status.succeeded (some [("score", 1)])).2.pending = sA2.pending ∧
        (register sA2 [5] Status.succeeded (some [("score", 1)])).2.suggested =
          sA2.suggested.erase [5]) :=
  register_unknown_config_safe sA2 [5] Status.succeeded (some [("score", 1)])

/-- C8: bulk registration returns false and performs no state mutation at
all when the base optimizer's batch validation fails; once validation
passes it returns true and replays every triple of the batch through the
single-registration path (which is total, so no triple aborts the rest),
and an omitted status list behaves exactly like an all-SUCCEEDED one. -/
theorem bulk_register_gate_and_replay {V : Type} [DecidableEq V]
    (s : GridOptState V) (configs : List (Config V))
    (scores : List (Option ScoreMap)) (status : Option (List Status)) :
    (baseBulkValidate configs scores status = false →
        bulkRegister s configs scores status = (false, s)) ∧
    (baseBulkValidate configs scores status = true →
        bulkRegister s configs scores status =
          (true,
            (zip3 configs scores
                (match status with
                 | none => List.replicate configs.length Status.succeeded
                 | some st => st)).foldl
              (fun s t => (register s t.1 t.2.2 t.2.1).2) s)) ∧
    bulkRegister s configs scores none =
      bulkRegister s configs scores
        (some (List.replicate configs.length Status.succeeded)) := by
  refine ⟨?_, ?_, ?_⟩
  · intro h
    simp [bulkRegister, h]
  · intro h
    simp [bulkRegister, h]
  · unfold bulkRegister baseBulkValidate
    simp

/-- Witness for C8 at a concrete one-element batch on state `sA2`. -/
theorem bulk_register_gate_and_replay_witness :
    (baseBulkValidate [([0] : Config Nat)] [(some [("score", 3)] : Option ScoreMap)] none = false →
        bulkRegister sA2 [[0]] [(some [("score", 3)] : Option ScoreMap)] none = (false, sA2)) ∧
    (baseBulkValidate [([0] : Config Nat)] [(some [("score", 3)] : Option ScoreMap)] none = true →
        bulkRegister sA2 [[0]] [(some [("score", 3)] : Option ScoreMap)] none =
          (true,
            (zip3 [([0] : Config Nat)] [(some [("score", 3)] : Option ScoreMap)]
                (match (none : Option (List Status)) with
                 | none => List.replicate [([0] : Config Nat)].length Status.succeeded
                 | some st => st)).foldl
              (fun s t => (register s t.1 t.2.2 t.2.1).2) sA2)) ∧
    bulkRegister sA2 [[0]] [(some [("score", 3)] : Option ScoreMap)] none =
      bulkRegister sA2 [[0]] [(some [("score", 3)] : Option ScoreMap)]
        (some (List.replicate [([0] : Config Nat)].length Status.succeeded)) :=
  bulk_register_gate_and_replay sA2 [[0]] [(some [("score", 3)] : Option ScoreMap)] none

/-- C9: on the maximization target of trace A, `register` returns the
negated score (any score v resolves to -v; 42 resolves to -42 and 7 to -7
along the concrete run), and `get_best_observation` afterwards reports the
un-negated best score 42 paired with the configuration `[0]` that produced
it. -/
theorem maximize_sign_convention :
    (∀ v : Int, (register sA2 [0] Status.succeeded (some [("score", v)])).1 =
        some [("score", -v)]) ∧
    register sA2 [0] Status.succeeded (some [("score", 42)]) =
      (some [("score", -42)], sD3) ∧
    register sD3 [1] Status.succeeded (some [("score", 7)]) =
      (some [("score", -7)], sD4) ∧
    getBestObservation sD4 = some ([("score", 42)], [0]) := by
  refine ⟨?_, rfl, rfl, rfl⟩
  intro v
  rfl

/-- C10 counterexample: after a successful setup the ready flag is true; a
later call whose parent setup fails returns false while the ready flag is
still true, so the returned value does not always equal the is-ready flag. -/
theorem os_setup_ready_flag_counterexample :
    osSetup true svcGood ⟨false⟩ = (true, ⟨true⟩, true) ∧
    osSetup false svcGood ⟨true⟩ = (false, ⟨true⟩, false) ∧
    (osSetup false svcGood ⟨true⟩).1 = false ∧
    (osSetup false svcGood ⟨true⟩).2.1.isReady = true :=
  ⟨rfl, rfl, rfl, rfl⟩

/-- C10 (amended): when the parent environment setup succeeds, `OSEnv.setup`
starts the host, returns true exactly when the final status (waited out via
`wait_vm_operation` when `vm_start` reports pending) is SUCCEEDED or READY,
and records exactly the returned value in the is-ready flag; when the
parent setup fails, it returns false immediately, without attempting to
start the host and leaving the environment state unchanged. -/
theorem os_setup_behavior {P : Type} (parentOk : Bool) (svc : VMService P)
    (s : OSEnvState) :
    (parentOk = false → osSetup parentOk svc s = (false, s, false)) ∧
    (parentOk = true →
        ((osSetup parentOk svc s).1 = true ↔
            (osFinalStatus svc = Status.succeeded ∨
              osFinalStatus svc = Status.ready)) ∧
        (osSetup parentOk svc s).2.1.isReady = (osSetup parentOk svc s).1 ∧
        (osSetup parentOk svc s).2.2 = true) := by
  constructor
  · intro h
    simp [osSetup, h]
  · intro h
    subst h
    refine ⟨?_, rfl, rfl⟩
    simp [osSetup, Bool.or_eq_true, beq_iff_eq]

/-- Witness for the amended C10 at a concrete immediately-succeeding host
service. -/
theorem os_setup_behavior_witness :
    (true = false → osSetup true svcGood ⟨false⟩ = (false, ⟨false⟩, false)) ∧
    (true = true →
        ((osSetup true svcGood ⟨false⟩).1 = true ↔
            (osFinalStatus svcGood = Status.succeeded ∨
              osFinalStatus svcGood = Status.ready)) ∧
        (osSetup true svcGood ⟨false⟩).2.1.isReady = (osSetup true svcGood ⟨false⟩).1 ∧
        (osSetup true svcGood ⟨false⟩).2.2 = true) :=
  os_setup_behavior true svcGood ⟨false⟩
